import Mathlib

/-!
# Verification of the MOA-api backend against its specification

Shallow embedding of the MOA-api repository (FastAPI + SQLAlchemy backend)
into Lean 4.  Pure Python functions become Lean functions; database state
becomes explicit state passing over lists of records; Python exceptions
become `Except`; wall-clock instants become integers (seconds); calls into
cryptographic or random primitives (bcrypt comparison, SHA-256, JWT
signing, `secrets.choice`) become explicit function parameters so every
behaviour of the primitive is quantified over.

Each definition is translated from the corresponding function in the
repository source (`app/...` paths are given in the doc comments).
-/

namespace MOA

/-! ## Python-level error model -/

/-- The Python exception classes relevant to the embedded code paths:
`jose.JWTError` (and its subclasses such as `ExpiredSignatureError` and
`JWTClaimsError`), `pydantic.ValidationError`, `ValueError` (which includes
passlib's `UnknownHashError`), `AttributeError` and `TypeError`. -/
inductive PyExc where
  | jwtError
  | validationError
  | valueError
  | attributeError
  | typeError
  deriving Repr, DecidableEq

/-- A FastAPI `HTTPException`, as raised by the service layer: a numeric
status code and a detail message.  (All 401 responses in the auth service
additionally carry the same `WWW-Authenticate: Bearer` header; since the
header is identical across those branches it is not modelled.) -/
structure HTTPErr where
  statusCode : Nat
  detail : String
  deriving Repr, DecidableEq

/-- Core provides no `DecidableEq` for `Except`; this instance lets the
concrete witnesses evaluate by `decide`. -/
instance instDecEqExcept {ε α : Type} [DecidableEq ε] [DecidableEq α] :
    DecidableEq (Except ε α) := fun x y =>
  match x, y with
  | .ok a, .ok b =>
    if h : a = b then .isTrue (by rw [h])
    else .isFalse (by intro hc; injection hc; exact h ‹_›)
  | .error e, .error f =>
    if h : e = f then .isTrue (by rw [h])
    else .isFalse (by intro hc; injection hc; exact h ‹_›)
  | .ok _, .error _ => .isFalse (by intro hc; cases hc)
  | .error _, .ok _ => .isFalse (by intro hc; cases hc)

/-! ## Model of Python `uuid.UUID(hex)` parsing

CPython's `uuid.UUID(hex)` removes every occurrence of `urn:` and `uuid:`,
strips leading and trailing curly braces, removes every dash, then requires
exactly 32 hexadecimal digits and takes their value.  (The exotic
tolerances of `int(s, 16)` for signs, `0x` prefixes and underscores are not
modelled; no claim depends on them.)  A failed parse raises `ValueError`,
modelled as `none` at the call sites that catch it. -/

/-- Value of one hexadecimal digit character, if it is one. -/
def hexDigitVal (c : Char) : Option Nat :=
  if c.isDigit then some (c.toNat - 48)
  else if 'a' ≤ c ∧ c ≤ 'f' then some (c.toNat - 87)
  else if 'A' ≤ c ∧ c ≤ 'F' then some (c.toNat - 55)
  else none

/-- Parse a list of characters as a hexadecimal numeral. -/
def parseHexNat (cs : List Char) : Option Nat :=
  cs.foldl (fun acc c => acc.bind (fun n => (hexDigitVal c).map (fun d => 16 * n + d))) (some 0)

/-- Is the character an ASCII curly brace? -/
def isCurly (c : Char) : Bool :=
  c = Char.ofNat 123 || c = Char.ofNat 125

/-- Python `str.strip` limited to the two curly-brace characters. -/
def stripCurly (cs : List Char) : List Char :=
  ((cs.dropWhile isCurly).reverse.dropWhile isCurly).reverse

/-- Python `s.replace(pat, "")`: delete the non-overlapping occurrences of
`pat`, scanning left to right.  Fuel-indexed so the recursion is
structural (the fuel `cs.length` always suffices for non-empty `pat`). -/
def removeOccsFuel (pat : List Char) : Nat → List Char → List Char
  | _, [] => []
  | 0, cs => cs
  | fuel + 1, c :: rest =>
    if List.isPrefixOf pat (c :: rest) then
      removeOccsFuel pat fuel (List.drop pat.length (c :: rest))
    else
      c :: removeOccsFuel pat fuel rest

/-- Python `s.replace(pat, "")` on a character list. -/
def removeOccs (pat : String) (cs : List Char) : List Char :=
  removeOccsFuel pat.toList cs.length cs

/-- Model of `uuid.UUID(hex=s)` from CPython (as invoked by
`app/utils/jwt.py:112`): removes every `urn:` and `uuid:`, strips curly
braces, removes every dash, then requires exactly 32 hexadecimal digits
and returns their 128-bit value; `none` where CPython raises
`ValueError`. -/
def pyUUIDparse (s : String) : Option Nat :=
  let l1 := removeOccs "uuid:" (removeOccs "urn:" s.toList)
  let l2 := (stripCurly l1).filter (fun c => c ≠ '-')
  if l2.length ≠ 32 then none
  else parseHexNat l2

/-! ## Model of JWT decoding (`jose.jwt.decode`) and `verify_token`

`app/utils/jwt.py:84-116`.  The call `jwt.decode(token, key, algorithms)`
verifies the signature, the `exp` claim and (that it is a string, when
present) the `sub` claim; every failure raises a subclass of
`jose.JWTError`.  The outcome of that call is therefore modelled as an
explicit `Except JWTError JWTPayload` parameter: quantifying over it covers
every token/secret combination.  On success, `sub` is a string when
present, and `type` is an arbitrary JSON value. -/

/-- The error classes `jose.jwt.decode` can raise; all of them are
subclasses of `jose.JWTError`. -/
inductive JWTError where
  | expiredSignature
  | claimsError
  | signatureInvalid
  | otherJWTError
  deriving Repr, DecidableEq

/-- A JSON value as found in a decoded JWT claim set slot. -/
inductive JValue where
  | jstr (s : String)
  | jnum (n : Int)
  | jbool (b : Bool)
  | jnull
  deriving Repr, DecidableEq

/-- The decoded payload of a JWT as surfaced by `jose.jwt.decode`:
the `sub` claim (guaranteed to be a string when present, since jose
validates it) and the `type` claim (any JSON value). -/
structure JWTPayload where
  sub : Option String
  typeClaim : Option JValue
  deriving Repr, DecidableEq

/-- Python equality `payload.get("type") == token_type` between an
optional JSON value and a string: true exactly when the value is that
string.  (`None == s`, `123 == s`, etc. are `False` in Python.) -/
def jvalEqStr : Option JValue → String → Bool
  | some (.jstr s), t => s = t
  | _, _ => false

/-- The body of the `try:` block of `verify_token`
(`app/utils/jwt.py:95-113`), with every exception explicit:
propagates the decode error, returns `none` on a `type` mismatch or a
missing `sub`, raises `ValueError` (from `UUID(...)`) on a malformed
subject, and returns the parsed id otherwise. -/
def verify_token_run (decoded : Except JWTError JWTPayload) (token_type : String) :
    Except PyExc (Option Nat) :=
  match decoded with
  | .error _ => .error .jwtError
  | .ok payload =>
    if jvalEqStr payload.typeClaim token_type = false then .ok none
    else
      match payload.sub with
      | none => .ok none
      | some s =>
        match pyUUIDparse s with
        | none => .error .valueError
        | some uid => .ok (some uid)

/-- The exception classes named in the `except` clause of `verify_token`
(`app/utils/jwt.py:115`): `(JWTError, ValidationError, ValueError)`. -/
def verifyTokenCatches : PyExc → Bool
  | .jwtError => true
  | .validationError => true
  | .valueError => true
  | _ => false

/-- `verify_token(token, token_type)` (`app/utils/jwt.py:84-116`):
runs the body and converts each caught exception class into `None`;
any exception of a class not listed would propagate to the caller. -/
def verify_token (decoded : Except JWTError JWTPayload) (token_type : String) :
    Except PyExc (Option Nat) :=
  match verify_token_run decoded token_type with
  | .ok r => .ok r
  | .error e => if verifyTokenCatches e then .ok none else .error e

/-- The value `verify_token` evaluates to, as an `Option` (it never
propagates an exception; see `verify_token_never_raises`). -/
def verify_token_opt (decoded : Except JWTError JWTPayload) (token_type : String) :
    Option Nat :=
  match verify_token_run decoded token_type with
  | .ok r => r
  | .error _ => none

/-! ## Data model: users, refresh-token records, and the database state

`app/models/user.py`, `app/models/refresh_token.py`.  Only the columns the
embedded code paths read or write are carried.  Timestamps are integers
(seconds); `datetime.utcnow()` becomes the explicit parameter `now`. -/

/-- A row of the `users` table (`app/models/user.py`), restricted to the
columns consulted by the auth flows. -/
structure UserRec where
  id : Nat
  userId : String
  password : Option String
  userName : String
  isActive : Bool
  lastLoginAt : Option Int
  deriving Repr, DecidableEq

/-- A row of the `refresh_tokens` table (`app/models/refresh_token.py`). -/
structure RefreshTokenRec where
  token : String
  userId : Nat
  expiresAt : Int
  isRevoked : Bool
  revokedAt : Option Int
  deriving Repr, DecidableEq

/-- `RefreshToken.is_expired` (`app/models/refresh_token.py:86-88`). -/
def RefreshTokenRec.is_expired (r : RefreshTokenRec) (now : Int) : Bool :=
  now > r.expiresAt

/-- `RefreshToken.is_valid` (`app/models/refresh_token.py:90-92`):
not revoked and not expired. -/
def RefreshTokenRec.is_valid (r : RefreshTokenRec) (now : Int) : Bool :=
  !r.isRevoked && !r.is_expired now

/-- The database state visible to the auth service. -/
structure DB where
  users : List UserRec
  tokens : List RefreshTokenRec
  deriving Repr, DecidableEq

/-- `UserRepository.get_by_id` (`app/repositories/user.py:25-30`). -/
def get_by_id (db : DB) (user_id : Nat) : Option UserRec :=
  db.users.find? (fun u => u.id == user_id)

/-- `UserRepository.get_by_userId` (`app/repositories/user.py:32-37`). -/
def get_by_userId (db : DB) (userId : String) : Option UserRec :=
  db.users.find? (fun u => u.userId == userId)

/-- `RefreshTokenRepository.get_by_token`
(`app/repositories/refresh_token.py:45-56`).  The `token` column has a
unique index, so at most one row matches; `find?` returns it. -/
def rt_get_by_token (db : DB) (token : String) : Option RefreshTokenRec :=
  db.tokens.find? (fun r => r.token == token)

/-- Mark the first record with the given token as revoked (the ORM object
loaded by `get_by_token` is the first — and, by the unique index, only —
matching row). -/
def revokeFirst (token : String) (now : Int) : List RefreshTokenRec → List RefreshTokenRec
  | [] => []
  | r :: rs =>
    if r.token == token then { r with isRevoked := true, revokedAt := some now } :: rs
    else r :: revokeFirst token now rs

/-- `RefreshTokenRepository.revoke_token`
(`app/repositories/refresh_token.py:58-75`): look the record up by token;
report `False` with no change when absent; otherwise mark it revoked with
the revocation instant and report `True`. -/
def revoke_token (db : DB) (token : String) (now : Int) : DB × Bool :=
  match rt_get_by_token db token with
  | none => (db, false)
  | some _ => ({ db with tokens := revokeFirst token now db.tokens }, true)

/-- `RefreshTokenRepository.create`
(`app/repositories/refresh_token.py:18-43`): inserts a fresh record
expiring `expireDays` days (86400 seconds each) from now. -/
def rt_create (db : DB) (user_id : Nat) (token : String) (now expireDays : Int) :
    DB × RefreshTokenRec :=
  let r : RefreshTokenRec :=
    { token := token, userId := user_id, expiresAt := now + expireDays * 86400,
      isRevoked := false, revokedAt := none }
  ({ db with tokens := db.tokens ++ [r] }, r)

/-- The `TokenResponse` schema (`app/schemas/user.py:152-158`). -/
structure TokenResponse where
  accessToken : String
  refreshToken : String
  tokenType : String
  deriving Repr, DecidableEq

/-- `AuthService.refresh_access_token`
(`app/services/auth_service.py:133-221`).  Parameters standing for
primitives: `sha256` (hash digest as hex string), `expireDays`
(`settings.JWT_REFRESH_TOKEN_EXPIRE_DAYS`), `decoded` (the outcome of
`jwt.decode` on the presented token, consumed through `verify_token` —
`verify_token_never_raises` justifies reading its value as
`verify_token_opt`), and `newAccess`/`newRefresh` (the freshly signed
token strings minted by `create_access_token`/`create_refresh_token`). -/
def refresh_access_token (sha256 : String → String) (expireDays : Int)
    (db : DB) (refreshToken : String) (decoded : Except JWTError JWTPayload)
    (now : Int) (newAccess newRefresh : String) :
    Except HTTPErr (TokenResponse × DB) :=
  match verify_token_opt decoded "refresh" with
  | none => .error ⟨401, "유효하지 않은 리프레시 토큰입니다"⟩
  | some user_id =>
    let token_hash := sha256 refreshToken
    match rt_get_by_token db token_hash with
    | none => .error ⟨401, "유효하지 않은 리프레시 토큰입니다"⟩
    | some stored =>
      if stored.is_valid now = false then
        .error ⟨401, "만료되었거나 폐기된 토큰입니다"⟩
      else
        match get_by_id db user_id with
        | none => .error ⟨401, "사용자를 찾을 수 없습니다"⟩
        | some user =>
          if user.isActive = false then
            .error ⟨403, "비활성화된 계정입니다"⟩
          else
            let db1 := (revoke_token db token_hash now).1
            let db2 := (rt_create db1 user.id (sha256 newRefresh) now expireDays).1
            .ok (⟨newAccess, newRefresh, "bearer"⟩, db2)

/-! ## Registration (`AuthService.register`) -/

/-- The `UserCreate` payload (`app/schemas/user.py:15-24`), restricted to
the fields `register` consults. -/
structure UserCreateData where
  userId : String
  password : String
  userName : String
  deriving Repr, DecidableEq

/-- Is the character allowed by the handle pattern `[a-zA-Z0-9._-]`? -/
def isHandleChar (c : Char) : Bool :=
  c.isAlpha || c.isDigit || c = '.' || c = '_' || c = '-'

/-- Python `str.lower()` on the ASCII-only strings the validator
admits. -/
def pyLower (s : String) : String := String.mk (s.toList.map Char.toLower)

/-- `UserCreate.validate_userId` (`app/schemas/user.py:26-34`): requires
at least 4 characters, all from `[a-zA-Z0-9._-]`, and returns the
lowercased handle.  (The tolerance of the regex anchor `$` for a single
trailing newline is not modelled; no claim depends on it.) -/
def validate_userId (v : String) : Except String String :=
  if v.length < 4 then .error "로그인 ID는 최소 4자 이상이어야 합니다"
  else if !(v.toList.all isHandleChar) then
    .error "로그인 ID는 영문, 숫자, ., _, - 만 사용 가능합니다"
  else .ok (pyLower v)

/-- `AuthService.register` (`app/services/auth_service.py:23-61`)
composed with `UserService.create_user` (`app/services/user.py:21-50`)
and `UserRepository.create` (`app/repositories/user.py:18-23`):
rejects with HTTP 400 when the handle is taken, otherwise inserts a new
active user with the hashed password.  `hash_password` (bcrypt) and the
server-generated row id `newId` are parameters.  Returns the (possibly
unchanged) database paired with the outcome. -/
def register (hash_password : String → String) (newId : Nat)
    (db : DB) (user_data : UserCreateData) : DB × Except HTTPErr UserRec :=
  match get_by_userId db user_data.userId with
  | some _ => (db, .error ⟨400, "이미 사용중인 아이디입니다."⟩)
  | none =>
    let new_user : UserRec :=
      { id := newId, userId := user_data.userId,
        password := some (hash_password user_data.password),
        userName := user_data.userName, isActive := true, lastLoginAt := none }
    ({ db with users := db.users ++ [new_user] }, .ok new_user)

/-! ## Shares (`app/models/share.py`, `app/services/share.py`) -/

/-- A row of the `shares` table, restricted to the columns the share
service consults. -/
structure Share where
  id : Nat
  userId : Nat
  cardId : Nat
  shareToken : String
  password : Option String
  expiryDate : Option Int
  viewCount : Nat
  isActive : Bool
  deriving Repr, DecidableEq

/-- `ShareService.is_share_valid` (`app/services/share.py:299-313`):
false when inactive; false when an expiry date is set and lies strictly
in the past; true otherwise.  (`share.expiryDate and ...` short-circuits
on `None`; a `datetime` object is always truthy.) -/
def is_share_valid (now : Int) (share : Share) : Bool :=
  if !share.isActive then false
  else
    match share.expiryDate with
    | some d => if d < now then false else true
    | none => true

/-- The validity rule exactly as the specification words it ("a share is
valid iff `isActive` is true AND (`expiryDate` is absent OR `expiryDate`
is in the future at evaluation time")), written for comparison with the
implementation `is_share_valid`. -/
def specShareValid (now : Int) (share : Share) : Bool :=
  share.isActive &&
    (match share.expiryDate with
     | none => true
     | some d => now < d)

/-- `ShareRepository.get_by_token` (`app/repositories/share.py:30-35`). -/
def share_get_by_token (shares : List Share) (shareToken : String) : Option Share :=
  shares.find? (fun s => s.shareToken == shareToken)

/-- `ShareService.get_share_by_token_with_validation`
(`app/services/share.py:94-126`): 404 when no share matches the token,
400 when the match fails `is_share_valid`, the share otherwise. -/
def get_share_by_token_with_validation (shares : List Share) (shareToken : String) (now : Int) :
    Except HTTPErr Share :=
  match share_get_by_token shares shareToken with
  | none => .error ⟨404, "공유 링크를 찾을 수 없습니다"⟩
  | some share =>
    if is_share_valid now share = false then
      .error ⟨400, "만료되었거나 비활성화된 공유 링크입니다"⟩
    else .ok share

/-! ## Cards (`app/models/card.py`, `app/services/card.py`) -/

/-- A row of the `cards` table, restricted to the columns the active-card
lookups consult. -/
structure Card where
  id : Nat
  qrCode : String
  title : String
  isActive : Bool
  deriving Repr, DecidableEq

/-- `CardRepository.get_by_id` (`app/repositories/card.py:23-28`). -/
def card_get_by_id (cards : List Card) (card_id : Nat) : Option Card :=
  cards.find? (fun c => c.id == card_id)

/-- `CardRepository.get_by_qr_code` (`app/repositories/card.py:30-35`). -/
def card_get_by_qr_code (cards : List Card) (qrCode : String) : Option Card :=
  cards.find? (fun c => c.qrCode == qrCode)

/-- `CardService.get_active_card_by_id` (`app/services/card.py:107-132`):
404 with the same detail both when the card is absent and when it is
inactive. -/
def get_active_card_by_id (cards : List Card) (card_id : Nat) : Except HTTPErr Card :=
  match card_get_by_id cards card_id with
  | none => .error ⟨404, "카드를 찾을 수 없습니다"⟩
  | some card =>
    if card.isActive = false then .error ⟨404, "카드를 찾을 수 없습니다"⟩
    else .ok card

/-- `CardService.get_active_card_by_qr_code`
(`app/services/card.py:134-159`): 404 with the same detail both when no
card has the QR code and when the card is inactive. -/
def get_active_card_by_qr_code (cards : List Card) (qrCode : String) : Except HTTPErr Card :=
  match card_get_by_qr_code cards qrCode with
  | none => .error ⟨404, "유효하지 않은 QR 코드입니다"⟩
  | some card =>
    if card.isActive = false then .error ⟨404, "유효하지 않은 QR 코드입니다"⟩
    else .ok card

/-! ## The generic sparse update of the repository layer -/

/-- The dict comprehension
`{k: v for k, v in kwargs.items() if v is not None}`:
drops every keyword argument whose value is the unset sentinel `None`. -/
def dropUnset {κ ν : Type} (kwargs : List (κ × Option ν)) : List (κ × ν) :=
  kwargs.filterMap (fun kv => kv.2.map (fun v => (kv.1, v)))

/-- The sparse update shared verbatim by `UserRepository.update`
(`app/repositories/user.py:54-73`), `ShareRepository.update`
(`app/repositories/share.py:73-92`) and `CardRepository.update`
(`app/repositories/card.py:77-96`).  A row is a total map from column
name to nullable column value; `row?` is the row the id designates (or
`none`); `kwargs` is the keyword-argument dict, so its keys are distinct.
Returns the re-read row together with whether an UPDATE statement was
issued. -/
def repo_update {κ ν : Type} [DecidableEq κ]
    (row? : Option (κ → Option ν)) (kwargs : List (κ × Option ν)) :
    Option (κ → Option ν) × Bool :=
  let update_data := dropUnset kwargs
  if update_data.isEmpty then (row?, false)
  else
    (row?.map (fun row f =>
      match update_data.lookup f with
      | some v => some v
      | none => row f), true)

/-! ## Random token generation (`app/utils/token.py`) -/

/-- `string.ascii_uppercase`. -/
def asciiUppercase : List Char := "ABCDEFGHIJKLMNOPQRSTUVWXYZ".toList

/-- `string.ascii_lowercase`. -/
def asciiLowercase : List Char := "abcdefghijklmnopqrstuvwxyz".toList

/-- `string.digits`. -/
def asciiDigits : List Char := "0123456789".toList

/-- `string.punctuation`: the 32 printable ASCII characters (codes 33 to
126) that are neither letters nor digits. -/
def asciiPunctuation : List Char :=
  (((List.range 127).drop 33).map Char.ofNat).filter (fun c => !(c.isAlpha || c.isDigit))

/-- The charset assembled by `generate_random_string`
(`app/utils/token.py:34-43`) from the four inclusion flags. -/
def assembleCharset (include_uppercase include_lowercase include_digits include_special : Bool) :
    List Char :=
  (if include_uppercase then asciiUppercase else []) ++
  (if include_lowercase then asciiLowercase else []) ++
  (if include_digits then asciiDigits else []) ++
  (if include_special then asciiPunctuation else [])

/-- `generate_random_string` (`app/utils/token.py:9-48`): assembles the
charset from the four flags, raises `ValueError` when it is empty, and
otherwise draws `length` characters.  `secrets.choice(characters)` is
modelled by the oracle `pick`: draw `i` selects
`characters[pick i % characters.length]`, so quantifying over `pick`
covers every sequence of random choices. -/
def generate_random_string (pick : Nat → Nat) (length : Nat)
    (include_uppercase include_lowercase include_digits include_special : Bool) :
    Except String (List Char) :=
  let characters : List Char :=
    assembleCharset include_uppercase include_lowercase include_digits include_special
  if characters.isEmpty then .error "최소 하나의 문자 타입을 포함해야 합니다"
  else .ok ((List.range length).map (fun i => characters.getD (pick i % characters.length) 'A'))

/-- `generate_share_token` (`app/utils/token.py:51-76`): upper + lower +
digits on, specials off. -/
def generate_share_token (pick : Nat → Nat) (length : Nat) : Except String (List Char) :=
  generate_random_string pick length true true true false

/-! ## Pagination (`app/schemas/common.py`) -/

/-- The `PaginatedResponse` schema (`app/schemas/common.py:30-38`). -/
structure PaginatedResponse (T : Type) where
  items : List T
  total : Nat
  page : Nat
  page_size : Nat
  total_pages : Nat
  deriving Repr, DecidableEq

/-- `PaginatedResponse.create` (`app/schemas/common.py:40-50`):
`total_pages = (total + page_size - 1) // page_size`. -/
def PaginatedResponse.create {T : Type} (items : List T) (total page page_size : Nat) :
    PaginatedResponse T :=
  { items := items, total := total, page := page, page_size := page_size,
    total_pages := (total + page_size - 1) / page_size }

/-! ## The share-creation and share-update route handlers
(`app/routers/v1/shares.py`) -/

/-- The field names the `ShareCreate` schema declares
(`app/schemas/share.py:12-18`): `cardId`, `password`, `expiryDays`. -/
def shareCreateFields : List String := ["cardId", "password", "expiryDays"]

/-- The field names the `ShareUpdate` schema declares
(`app/schemas/share.py:28-34`): `password`, `expiryDays`, `isActive`. -/
def shareUpdateFields : List String := ["password", "expiryDays", "isActive"]

/-- Pydantic attribute access `model.<name>`: a `BaseModel` raises
`AttributeError` for a name that is not a declared field.  Only
success/failure is modelled; the claims do not depend on the values. -/
def pyGetattr (fields : List String) (name : String) : Except PyExc Unit :=
  if name ∈ fields then .ok () else .error .attributeError

/-- The `create_share` route handler (`app/routers/v1/shares.py:31-58`):
evaluates the keyword arguments of the service call left to right —
`share_data.cardId`, `share_data.password`, `share_data.expiryDate` —
and only then would invoke
`share_service.create_share_with_validation` (the parameter `svc`). -/
def create_share_route {α : Type} (svc : Unit → Except HTTPErr α) :
    Except PyExc (Except HTTPErr α) := do
  let _ ← pyGetattr shareCreateFields "cardId"
  let _ ← pyGetattr shareCreateFields "password"
  let _ ← pyGetattr shareCreateFields "expiryDate"
  return svc ()

/-- The `update_share` route handler (`app/routers/v1/shares.py:182-214`):
evaluates `share_data.password`, `share_data.expiryDate`,
`share_data.isActive` left to right and only then would invoke
`share_service.update_share_with_validation` (the parameter `svc`). -/
def update_share_route {α : Type} (svc : Unit → Except HTTPErr α) :
    Except PyExc (Except HTTPErr α) := do
  let _ ← pyGetattr shareUpdateFields "password"
  let _ ← pyGetattr shareUpdateFields "expiryDate"
  let _ ← pyGetattr shareUpdateFields "isActive"
  return svc ()

/-! ## Password hashing (`app/utils/password.py`)

The `pwd_context = CryptContext(schemes=["bcrypt"], deprecated="auto")`
calls go into passlib, an external dependency.  Its documented behaviour:
`CryptContext.verify` and `CryptContext.needs_update` first identify the
hash among the configured schemes and raise `UnknownHashError` — a
subclass of `ValueError` — when no scheme recognizes it; bcrypt
identification accepts the `$2$`/`$2a$`/`$2b$`/`$2x$`/`$2y$` prefixes.
The backend comparison itself is a parameter. -/

/-- Does passlib's bcrypt handler identify the string as a bcrypt hash?
(Python `h.startswith(p)`, over character lists.) -/
def bcryptIdentify (h : String) : Bool :=
  List.isPrefixOf "$2$".toList h.toList || List.isPrefixOf "$2a$".toList h.toList ||
  List.isPrefixOf "$2b$".toList h.toList || List.isPrefixOf "$2x$".toList h.toList ||
  List.isPrefixOf "$2y$".toList h.toList

/-- Model of passlib `CryptContext.verify` for `schemes=["bcrypt"]`. -/
def cryptContext_verify (bcryptCheck : String → String → Bool) (secret hash : String) :
    Except PyExc Bool :=
  if bcryptIdentify hash then .ok (bcryptCheck secret hash) else .error .valueError

/-- `verify_password` (`app/utils/password.py:29-47`): a direct call to
`pwd_context.verify` with no exception handling of its own. -/
def verify_password (bcryptCheck : String → String → Bool) (plain hashed : String) :
    Except PyExc Bool :=
  cryptContext_verify bcryptCheck plain hashed

/-- Model of passlib `CryptContext.needs_update` for
`schemes=["bcrypt"]`. -/
def cryptContext_needs_update (check : String → Bool) (hash : String) : Except PyExc Bool :=
  if bcryptIdentify hash then .ok (check hash) else .error .valueError

/-- `needs_rehash` (`app/utils/password.py:50-61`): a direct call to
`pwd_context.needs_update` with no exception handling of its own. -/
def needs_rehash (check : String → Bool) (hashed : String) : Except PyExc Bool :=
  cryptContext_needs_update check hashed

/-! ## Concrete fixtures used by the witness theorems -/

/-- Fixture: an active user. -/
def wUser : UserRec :=
  { id := 1, userId := "abcd", password := some "h", userName := "Alice",
    isActive := true, lastLoginAt := none }

/-- Fixture: a live refresh-token record whose stored digest matches
`"tok" ++ "#"`. -/
def wStored : RefreshTokenRec :=
  { token := "tok#", userId := 1, expiresAt := 100, isRevoked := false, revokedAt := none }

/-- Fixture: a one-user, one-record database. -/
def wDB : DB := { users := [wUser], tokens := [wStored] }

/-- Fixture: the decode outcome of a refresh token whose subject is the
UUID with value 1. -/
def wDecoded : Except JWTError JWTPayload :=
  .ok { sub := some "00000000000000000000000000000001", typeClaim := some (.jstr "refresh") }

/-- Fixture: an active share whose expiry instant is exactly the
evaluation instant 0. -/
def wShare : Share :=
  { id := 1, userId := 1, cardId := 1, shareToken := "s", password := none,
    expiryDate := some 0, viewCount := 0, isActive := true }

/-- Fixture: an inactive card. -/
def wCard : Card := { id := 1, qrCode := "qr1", title := "T", isActive := false }

/-- Fixture: a row with columns `a`, `b` set and everything else NULL. -/
def wRow : String → Option Nat :=
  fun f => if f = "a" then some 1 else if f = "b" then some 2 else none

/-- Fixture: keyword arguments setting `a` and leaving `c` unset. -/
def wKwargs : List (String × Option Nat) := [("a", some 5), ("c", none)]

/-! ## Theorems -/

/-- Helper: `verify_token` always returns normally, with the value
`verify_token_opt`. -/
theorem verify_token_never_raises (decoded : Except JWTError JWTPayload) (token_type : String) :
    verify_token decoded token_type = .ok (verify_token_opt decoded token_type) := by
  unfold verify_token verify_token_opt
  match h : verify_token_run decoded token_type with
  | .ok r => rfl
  | .error e =>
    cases decoded with
    | error je =>
      simp only [verify_token_run] at h
      cases h
      rfl
    | ok payload =>
      simp only [verify_token_run] at h
      by_cases ht : jvalEqStr payload.typeClaim token_type = false
      · simp [ht] at h
      · simp only [ht, if_false] at h
        match hs : payload.sub with
        | none => simp [hs] at h
        | some s =>
          simp only [hs] at h
          match hu : pyUUIDparse s with
          | none =>
            simp only [hu] at h
            cases h
            rfl
          | some uid => simp [hu] at h

/-- Helper: characterization of the value returned by `verify_token`. -/
theorem verify_token_opt_eq_some (decoded : Except JWTError JWTPayload) (tt : String) (uid : Nat) :
    verify_token_opt decoded tt = some uid ↔
      ∃ payload s, decoded = .ok payload ∧ jvalEqStr payload.typeClaim tt = true ∧
        payload.sub = some s ∧ pyUUIDparse s = some uid := by
  unfold verify_token_opt verify_token_run
  cases decoded with
  | error e => simp
  | ok payload =>
    by_cases ht : jvalEqStr payload.typeClaim tt = false
    · simp [ht]
    · rw [Bool.not_eq_false] at ht
      simp only [ht, Bool.true_eq_false, if_false]
      match hs : payload.sub with
      | none => simp [hs]
      | some s =>
        match hu : pyUUIDparse s with
        | none => simp [hu, hs, ht]
        | some u => simp [hu, hs, ht]

/-- C5: `verify_token(token, expectedType)` (`app/utils/jwt.py:84-116`)
returns the embedded user id exactly when the decode of the token
succeeded (signature verified and token unexpired — both enforced inside
`jwt.decode`, whose outcome is the `decoded` parameter), the `type` claim
equals the expected type exactly, and the `sub` claim is present and
parses as a valid UUID; in every other case it returns `None`; and it
never propagates an exception to the caller. -/
theorem C5_verify_token_id_or_invalid_never_raises
    (decoded : Except JWTError JWTPayload) (token_type : String) :
    (∃ r : Option Nat, verify_token decoded token_type = .ok r) ∧
    (∀ uid : Nat, verify_token decoded token_type = .ok (some uid) ↔
      ∃ payload s, decoded = .ok payload ∧ jvalEqStr payload.typeClaim token_type = true ∧
        payload.sub = some s ∧ pyUUIDparse s = some uid) := by
  have hok : verify_token decoded token_type = .ok (verify_token_opt decoded token_type) :=
    verify_token_never_raises decoded token_type
  refine ⟨⟨_, hok⟩, fun uid => ?_⟩
  rw [hok]
  constructor
  · intro h
    have : verify_token_opt decoded token_type = some uid := by
      injection h
    exact (verify_token_opt_eq_some decoded token_type uid).mp this
  · intro h
    have : verify_token_opt decoded token_type = some uid :=
      (verify_token_opt_eq_some decoded token_type uid).mpr h
    rw [this]

/-- C5 witness: concrete evaluation of the theorem, at a decoded refresh
token with a well-formed UUID subject. -/
theorem C5_witness :
    verify_token
      (.ok { sub := some "12345678-1234-5678-1234-567812345678",
             typeClaim := some (.jstr "refresh") }) "refresh" =
      .ok (some 0x12345678123456781234567812345678) := by
  have h := (C5_verify_token_id_or_invalid_never_raises
      (.ok { sub := some "12345678-1234-5678-1234-567812345678",
             typeClaim := some (.jstr "refresh") }) "refresh").2
      0x12345678123456781234567812345678
  exact h.mpr ⟨_, _, rfl, by decide, rfl, by decide⟩

/-- Helper: the record found by token is present, revoked, in the revoked
list. -/
theorem revokeFirst_mem_of_find (t : String) (now : Int) :
    ∀ (l : List RefreshTokenRec) (stored : RefreshTokenRec),
      l.find? (fun r => r.token == t) = some stored →
      { stored with isRevoked := true, revokedAt := some now } ∈ revokeFirst t now l := by
  intro l
  induction l with
  | nil => intro stored h; simp at h
  | cons r rs ih =>
    intro stored h
    by_cases hr : (r.token == t) = true
    · simp only [List.find?, hr] at h
      injection h with h
      subst h
      simp [revokeFirst, hr]
    · rw [Bool.not_eq_true] at hr
      simp only [List.find?, hr] at h
      simp only [revokeFirst, hr, Bool.false_eq_true, if_false]
      exact List.mem_cons_of_mem _ (ih stored h)

/-- Helper: records with a different token survive revocation
unchanged. -/
theorem revokeFirst_mem_of_ne (t : String) (now : Int) :
    ∀ (l : List RefreshTokenRec) (r : RefreshTokenRec),
      r ∈ l → r.token ≠ t → r ∈ revokeFirst t now l := by
  intro l
  induction l with
  | nil => intro r h _; simp at h
  | cons r0 rs ih =>
    intro r h hne
    rcases List.mem_cons.mp h with h0 | hmem
    · subst h0
      have : (r.token == t) = false := by
        simp [hne]
      simp [revokeFirst, this]
    · by_cases hr0 : (r0.token == t) = true
      · simp only [revokeFirst, hr0, if_true]
        exact List.mem_cons_of_mem _ hmem
      · simp only [revokeFirst, hr0, if_false]
        exact List.mem_cons_of_mem _ (ih r hmem hne)

/-- C1: `refresh_access_token` (`app/services/auth_service.py:133-221`)
checks, in this order: signed-token verification (signature, expiry,
type "refresh", all inside `verify_token`), existence of a server-side
record keyed by the SHA-256 digest of the presented token, validity of
that record (not revoked, not expired), existence of the owning user,
and the user being active.  Record absence yields the very same 401
response as signature failure, record invalidity the same 401 status; a
deactivated user yields 403.  On success the presented token's record is
revoked, the digest of the new refresh token is persisted as a fresh
record, other records are untouched, and the new pair is returned with
token type "bearer".  Success also implies every check passed. -/
theorem C1_refresh_access_token_rotation
    (sha256 : String → String) (expireDays : Int)
    (db : DB) (refreshToken : String) (decoded : Except JWTError JWTPayload)
    (now : Int) (newAccess newRefresh : String) :
    (verify_token_opt decoded "refresh" = none →
      refresh_access_token sha256 expireDays db refreshToken decoded now newAccess newRefresh =
        .error ⟨401, "유효하지 않은 리프레시 토큰입니다"⟩) ∧
    (∀ uid, verify_token_opt decoded "refresh" = some uid →
      rt_get_by_token db (sha256 refreshToken) = none →
      refresh_access_token sha256 expireDays db refreshToken decoded now newAccess newRefresh =
        .error ⟨401, "유효하지 않은 리프레시 토큰입니다"⟩) ∧
    (∀ uid stored, verify_token_opt decoded "refresh" = some uid →
      rt_get_by_token db (sha256 refreshToken) = some stored →
      stored.is_valid now = false →
      refresh_access_token sha256 expireDays db refreshToken decoded now newAccess newRefresh =
        .error ⟨401, "만료되었거나 폐기된 토큰입니다"⟩) ∧
    (∀ uid stored, verify_token_opt decoded "refresh" = some uid →
      rt_get_by_token db (sha256 refreshToken) = some stored →
      stored.is_valid now = true → get_by_id db uid = none →
      refresh_access_token sha256 expireDays db refreshToken decoded now newAccess newRefresh =
        .error ⟨401, "사용자를 찾을 수 없습니다"⟩) ∧
    (∀ uid stored user, verify_token_opt decoded "refresh" = some uid →
      rt_get_by_token db (sha256 refreshToken) = some stored →
      stored.is_valid now = true → get_by_id db uid = some user →
      user.isActive = false →
      refresh_access_token sha256 expireDays db refreshToken decoded now newAccess newRefresh =
        .error ⟨403, "비활성화된 계정입니다"⟩) ∧
    (∀ uid stored user, verify_token_opt decoded "refresh" = some uid →
      rt_get_by_token db (sha256 refreshToken) = some stored →
      stored.is_valid now = true → get_by_id db uid = some user →
      user.isActive = true →
      refresh_access_token sha256 expireDays db refreshToken decoded now newAccess newRefresh =
        .ok (⟨newAccess, newRefresh, "bearer"⟩,
          ⟨db.users, revokeFirst (sha256 refreshToken) now db.tokens ++
            [⟨sha256 newRefresh, user.id, now + expireDays * 86400, false, none⟩]⟩) ∧
      { stored with isRevoked := true, revokedAt := some now } ∈
        (revokeFirst (sha256 refreshToken) now db.tokens ++
          [(⟨sha256 newRefresh, user.id, now + expireDays * 86400, false, none⟩ : RefreshTokenRec)]) ∧
      (⟨sha256 newRefresh, user.id, now + expireDays * 86400, false, none⟩ : RefreshTokenRec) ∈
        (revokeFirst (sha256 refreshToken) now db.tokens ++
          [(⟨sha256 newRefresh, user.id, now + expireDays * 86400, false, none⟩ : RefreshTokenRec)]) ∧
      (∀ r ∈ db.tokens, r.token ≠ sha256 refreshToken →
        r ∈ (revokeFirst (sha256 refreshToken) now db.tokens ++
          [(⟨sha256 newRefresh, user.id, now + expireDays * 86400, false, none⟩ : RefreshTokenRec)]))) ∧
    (∀ tr db2,
      refresh_access_token sha256 expireDays db refreshToken decoded now newAccess newRefresh =
        .ok (tr, db2) →
      ∃ uid stored user, verify_token_opt decoded "refresh" = some uid ∧
        rt_get_by_token db (sha256 refreshToken) = some stored ∧
        stored.is_valid now = true ∧
        get_by_id db uid = some user ∧ user.isActive = true) := by
  refine ⟨?_, ?_, ?_, ?_, ?_, ?_, ?_⟩
  · intro hv
    simp [refresh_access_token, hv]
  · intro uid hv hr
    simp [refresh_access_token, hv, hr]
  · intro uid stored hv hr hval
    simp [refresh_access_token, hv, hr, hval]
  · intro uid stored hv hr hval hu
    simp [refresh_access_token, hv, hr, hval, hu]
  · intro uid stored user hv hr hval hu ha
    simp [refresh_access_token, hv, hr, hval, hu, ha]
  · intro uid stored user hv hr hval hu ha
    refine ⟨?_, ?_, ?_, ?_⟩
    · simp [refresh_access_token, hv, hr, hval, hu, ha, revoke_token, rt_create]
    · exact List.mem_append_left _ (revokeFirst_mem_of_find _ now db.tokens stored hr)
    · exact List.mem_append_right _ (List.mem_singleton.mpr rfl)
    · intro r hmem hne
      exact List.mem_append_left _ (revokeFirst_mem_of_ne _ now db.tokens r hmem hne)
  · intro tr db2 hok
    simp only [refresh_access_token] at hok
    cases hv : verify_token_opt decoded "refresh" with
    | none => rw [hv] at hok; simp at hok
    | some uid =>
      rw [hv] at hok
      cases hr : rt_get_by_token db (sha256 refreshToken) with
      | none => rw [hr] at hok; simp at hok
      | some stored =>
        rw [hr] at hok
        cases hval : stored.is_valid now with
        | false => simp [hval] at hok
        | true =>
          simp only [hval, Bool.true_eq_false, if_false] at hok
          cases hu : get_by_id db uid with
          | none => rw [hu] at hok; simp at hok
          | some user =>
            rw [hu] at hok
            cases ha : user.isActive with
            | false => simp [ha] at hok
            | true => exact ⟨uid, stored, user, rfl, rfl, hval, hu, ha⟩

/-- C1 witness: the success branch of the rotation theorem evaluated on
the concrete fixture database. -/
theorem C1_witness :
    verify_token_opt wDecoded "refresh" = some 1 ∧
    rt_get_by_token wDB ((fun s => s ++ "#") "tok") = some wStored ∧
    wStored.is_valid 50 = true ∧
    get_by_id wDB 1 = some wUser ∧
    wUser.isActive = true ∧
    refresh_access_token (fun s => s ++ "#") 7 wDB "tok" wDecoded 50 "na" "nr" =
      .ok (⟨"na", "nr", "bearer"⟩,
        ⟨wDB.users, revokeFirst ((fun s => s ++ "#") "tok") 50 wDB.tokens ++
          [⟨(fun s => s ++ "#") "nr", wUser.id, 50 + 7 * 86400, false, none⟩]⟩) := by
  refine ⟨by decide, by decide, by decide, by decide, by decide, ?_⟩
  exact ((C1_refresh_access_token_rotation (fun s => s ++ "#") 7 wDB "tok" wDecoded
    50 "na" "nr").2.2.2.2.2.1 1 wStored wUser
    (by decide) (by decide) (by decide) (by decide) (by decide)).1

/-- C3 counterexample: with the handle `abcd` already taken, `register`
rejects with HTTP 400 Bad Request, not the 409 Conflict the claim
asserts. -/
theorem C3_counterexample :
    (register (fun s => s) 2 wDB ⟨"abcd", "password1", "Bob"⟩).2 =
      .error ⟨400, "이미 사용중인 아이디입니다."⟩ ∧
    (400 : Nat) ≠ 409 :=
  ⟨by decide, by decide⟩

/-- C3 (amended): for a registration payload whose handle — lowercased by
`validate_userId` at validation time — already belongs to an existing
user, `register` rejects with HTTP 400 Bad Request (the code uses 400,
not 409 Conflict) and leaves the user table unchanged; for a free handle
it hashes the password, appends the new active user, and returns it. -/
theorem C3_register_duplicate_or_create
    (hash_password : String → String) (newId : Nat) (db : DB)
    (raw nh pw un : String) (hval : validate_userId raw = .ok nh) :
    nh = pyLower raw ∧
    (∀ u, get_by_userId db nh = some u →
      register hash_password newId db ⟨nh, pw, un⟩ =
        (db, .error ⟨400, "이미 사용중인 아이디입니다."⟩)) ∧
    (get_by_userId db nh = none →
      register hash_password newId db ⟨nh, pw, un⟩ =
        ({ db with users := db.users ++
            [⟨newId, nh, some (hash_password pw), un, true, none⟩] },
          .ok ⟨newId, nh, some (hash_password pw), un, true, none⟩)) := by
  refine ⟨?_, ?_, ?_⟩
  · unfold validate_userId at hval
    split at hval
    · cases hval
    · split at hval
      · cases hval
      · injection hval with h
        exact h.symm
  · intro u hu
    simp [register, hu]
  · intro hu
    simp [register, hu]

/-- C3 witness: the duplicate branch of the theorem at raw handle
`AbCd`, which normalizes to the taken handle `abcd`. -/
theorem C3_witness :
    validate_userId "AbCd" = .ok "abcd" ∧
    register (fun s => s) 2 wDB ⟨"abcd", "password1", "Bob"⟩ =
      (wDB, .error ⟨400, "이미 사용중인 아이디입니다."⟩) :=
  ⟨by decide,
   (C3_register_duplicate_or_create (fun s => s) 2 wDB "AbCd" "abcd" "password1" "Bob"
     (by decide)).2.1 wUser (by decide)⟩

/-- C2 counterexample: an active share whose `expiryDate` equals the
evaluation instant.  The implementation calls it valid (the code rejects
only a strictly past expiry), while the claimed rule — "`expiryDate` is
in the future at evaluation time" — calls it invalid, so the claimed
iff fails here; token retrieval consequently returns the share where the
claim demands BadRequest. -/
theorem C2_counterexample :
    is_share_valid 0 wShare = true ∧
    specShareValid 0 wShare = false ∧
    is_share_valid 0 wShare ≠ specShareValid 0 wShare ∧
    get_share_by_token_with_validation [wShare] "s" 0 = .ok wShare :=
  ⟨by decide, by decide, by decide, by decide⟩

/-- C2 (amended): a share is valid iff `isActive` is true and
(`expiryDate` is absent or not strictly in the past — the boundary
instant `expiryDate = now` still counts as valid); token-based retrieval
returns 404 when no share matches the token, 400 ("expired or
deactivated") when the match fails this rule, and the share otherwise. -/
theorem C2_share_validity_and_token_lookup (shares : List Share) (tok : String) (now : Int) :
    (∀ s : Share, is_share_valid now s = true ↔
      (s.isActive = true ∧
        (s.expiryDate = none ∨ ∃ d, s.expiryDate = some d ∧ now ≤ d))) ∧
    (share_get_by_token shares tok = none →
      get_share_by_token_with_validation shares tok now =
        .error ⟨404, "공유 링크를 찾을 수 없습니다"⟩) ∧
    (∀ s, share_get_by_token shares tok = some s → is_share_valid now s = false →
      get_share_by_token_with_validation shares tok now =
        .error ⟨400, "만료되었거나 비활성화된 공유 링크입니다"⟩) ∧
    (∀ s, share_get_by_token shares tok = some s → is_share_valid now s = true →
      get_share_by_token_with_validation shares tok now = .ok s) := by
  refine ⟨?_, ?_, ?_, ?_⟩
  · intro s
    unfold is_share_valid
    cases ha : s.isActive with
    | false => simp [ha]
    | true =>
      cases hd : s.expiryDate with
      | none => simp [ha, hd]
      | some d =>
        by_cases hlt : d < now
        · simp only [ha, hd, Bool.not_true, Bool.false_eq_true, if_false, hlt, if_true]
          constructor
          · intro hc; cases hc
          · rintro ⟨-, hor⟩
            rcases hor with hn | ⟨d2, hd2, hle⟩
            · cases hn
            · injection hd2 with hd2
              omega
        · simp only [ha, hd, Bool.not_true, Bool.false_eq_true, if_false, hlt, if_false]
          constructor
          · intro _
            exact ⟨trivial, Or.inr ⟨d, rfl, by omega⟩⟩
          · intro _
            trivial
  · intro h
    simp [get_share_by_token_with_validation, h]
  · intro s h hv
    simp [get_share_by_token_with_validation, h, hv]
  · intro s h hv
    simp [get_share_by_token_with_validation, h, hv]

/-- C2 witness: the successful-retrieval branch evaluated on the fixture
share. -/
theorem C2_witness :
    share_get_by_token [wShare] "s" = some wShare ∧
    is_share_valid 0 wShare = true ∧
    get_share_by_token_with_validation [wShare] "s" 0 = .ok wShare :=
  ⟨by decide, by decide,
   (C2_share_validity_and_token_lookup [wShare] "s" 0).2.2.2 wShare (by decide) (by decide)⟩

/-- C4 counterexample: on a string no bcrypt scheme identifies, both
`verify_password` and `needs_rehash` propagate passlib's
`UnknownHashError` (a `ValueError`) instead of returning a boolean, so
the claimed "returns false for malformed hashes and never raises"
fails. -/
theorem C4_counterexample :
    verify_password (fun _ _ => false) "pw" "not-a-hash" = .error .valueError ∧
    needs_rehash (fun _ => false) "not-a-hash" = .error .valueError :=
  ⟨by decide, by decide⟩

/-- C4 (amended): `verify_password` and `needs_rehash` return a boolean
for every hash string passlib identifies as bcrypt, and raise
`UnknownHashError` (a `ValueError`) for every malformed hash string
rather than treating it as "does not verify"; neither function catches
the error. -/
theorem C4_password_utils_raise_on_malformed
    (bcryptCheck : String → String → Bool) (check : String → Bool) (plain hashed : String) :
    (bcryptIdentify hashed = true →
      verify_password bcryptCheck plain hashed = .ok (bcryptCheck plain hashed) ∧
      needs_rehash check hashed = .ok (check hashed)) ∧
    (bcryptIdentify hashed = false →
      verify_password bcryptCheck plain hashed = .error .valueError ∧
      needs_rehash check hashed = .error .valueError) := by
  constructor
  · intro h
    constructor
    · simp [verify_password, cryptContext_verify, h]
    · simp [needs_rehash, cryptContext_needs_update, h]
  · intro h
    constructor
    · simp [verify_password, cryptContext_verify, h]
    · simp [needs_rehash, cryptContext_needs_update, h]

/-- C4 witness: a recognized bcrypt-format hash string evaluates to a
boolean result. -/
theorem C4_witness :
    bcryptIdentify "$2b$12$abcdefghijklmnopqrstuv" = true ∧
    verify_password (fun _ _ => true) "pw" "$2b$12$abcdefghijklmnopqrstuv" = .ok true ∧
    needs_rehash (fun _ => false) "$2b$12$abcdefghijklmnopqrstuv" = .ok false :=
  ⟨by decide,
   ((C4_password_utils_raise_on_malformed (fun _ _ => true) (fun _ => false)
     "pw" "$2b$12$abcdefghijklmnopqrstuv").1 (by decide)).1,
   ((C4_password_utils_raise_on_malformed (fun _ _ => true) (fun _ => false)
     "pw" "$2b$12$abcdefghijklmnopqrstuv").1 (by decide)).2⟩

/-- Helper: `dropUnset` skips an unset head. -/
theorem dropUnset_cons_none {κ ν : Type} {kv : κ × Option ν} (rest : List (κ × Option ν))
    (hv : kv.2 = none) : dropUnset (kv :: rest) = dropUnset rest := by
  simp [dropUnset, List.filterMap_cons, hv]

/-- Helper: `dropUnset` keeps a set head. -/
theorem dropUnset_cons_some {κ ν : Type} {kv : κ × Option ν} {v : ν} (rest : List (κ × Option ν))
    (hv : kv.2 = some v) : dropUnset (kv :: rest) = (kv.1, v) :: dropUnset rest := by
  simp [dropUnset, List.filterMap_cons, hv]

/-- Helper: filtering the unset entries away first does not change
`dropUnset`. -/
theorem dropUnset_filter_isSome {κ ν : Type} (kwargs : List (κ × Option ν)) :
    dropUnset (kwargs.filter (fun kv => kv.2.isSome)) = dropUnset kwargs := by
  induction kwargs with
  | nil => rfl
  | cons kv rest ih =>
    cases hv : kv.2 with
    | none =>
      rw [dropUnset_cons_none rest hv, List.filter_cons]
      simp only [hv, Option.isSome_none, Bool.false_eq_true, if_false]
      exact ih
    | some v =>
      rw [dropUnset_cons_some rest hv, List.filter_cons]
      simp only [hv, Option.isSome_some, if_true]
      rw [dropUnset_cons_some _ hv, ih]

/-- Helper: the keys of `dropUnset kwargs` form a sublist of the keys of
`kwargs`. -/
theorem dropUnset_keys_sublist {κ ν : Type} (kwargs : List (κ × Option ν)) :
    ((dropUnset kwargs).map Prod.fst).Sublist (kwargs.map Prod.fst) := by
  induction kwargs with
  | nil => simp [dropUnset]
  | cons kv rest ih =>
    cases hv : kv.2 with
    | none =>
      simp only [dropUnset, List.filterMap_cons, hv, Option.map_none', List.map_cons]
      exact ih.cons _
    | some v =>
      simp only [dropUnset, List.filterMap_cons, hv, Option.map_some', List.map_cons]
      exact ih.cons₂ _

/-- Helper: in a list with distinct keys, `lookup` finds the value of
every member. -/
theorem lookup_eq_some_of_mem {κ ν : Type} [DecidableEq κ] :
    ∀ (l : List (κ × ν)), (l.map Prod.fst).Nodup →
      ∀ (f : κ) (v : ν), (f, v) ∈ l → l.lookup f = some v := by
  intro l
  induction l with
  | nil => intro _ f v h; simp at h
  | cons kv rest ih =>
    obtain ⟨k1, v1⟩ := kv
    intro hnd f v h
    rcases List.mem_cons.mp h with h0 | hmem
    · injection h0 with h1 h2
      subst h1; subst h2
      simp [List.lookup]
    · have hf : f ∈ rest.map Prod.fst := List.mem_map.mpr ⟨(f, v), hmem, rfl⟩
      rw [List.map_cons, List.nodup_cons] at hnd
      have hne : (f == k1) = false := by
        rw [beq_eq_false_iff_ne]
        intro hfk
        subst hfk
        exact hnd.1 hf
      simp only [List.lookup, hne]
      exact ih hnd.2 f v hmem

/-- Helper: `lookup` misses every key that is not in the list. -/
theorem lookup_eq_none_of_not_mem {κ ν : Type} [DecidableEq κ] :
    ∀ (l : List (κ × ν)) (f : κ), f ∉ l.map Prod.fst → l.lookup f = none := by
  intro l
  induction l with
  | nil => intro f _; rfl
  | cons kv rest ih =>
    obtain ⟨k1, v1⟩ := kv
    intro f h
    rw [List.map_cons] at h
    have hne : (f == k1) = false := by
      rw [beq_eq_false_iff_ne]
      intro hfk
      exact h (by rw [hfk]; exact List.mem_cons_self _ _)
    simp only [List.lookup, hne]
    exact ih f (fun hm => h (List.mem_cons_of_mem _ hm))

/-- C6: the generic sparse update of `UserRepository.update`,
`ShareRepository.update` and `CardRepository.update` drops every field
supplied as unset (`None`) — so this path can never clear a column to
NULL; when nothing remains it returns the current row unchanged with no
write issued; otherwise it issues the write, sets exactly the supplied
columns to their supplied values, and every other column keeps its
previous value. -/
theorem C6_repo_update_sparse_frame {κ ν : Type} [DecidableEq κ]
    (row? : Option (κ → Option ν)) (kwargs : List (κ × Option ν))
    (hkeys : (kwargs.map Prod.fst).Nodup) :
    repo_update row? kwargs = repo_update row? (kwargs.filter (fun kv => kv.2.isSome)) ∧
    (dropUnset kwargs = [] → repo_update row? kwargs = (row?, false)) ∧
    (dropUnset kwargs ≠ [] →
      (repo_update row? kwargs).2 = true ∧
      ∀ row, row? = some row →
        ∃ newRow, (repo_update row? kwargs).1 = some newRow ∧
          (∀ f v, (f, v) ∈ dropUnset kwargs → newRow f = some v) ∧
          (∀ f, f ∉ (dropUnset kwargs).map Prod.fst → newRow f = row f) ∧
          (∀ f, newRow f = none → row f = none)) := by
  have hkeys2 : ((dropUnset kwargs).map Prod.fst).Nodup :=
    hkeys.sublist (dropUnset_keys_sublist kwargs)
  refine ⟨?_, ?_, ?_⟩
  · unfold repo_update
    rw [dropUnset_filter_isSome]
  · intro h
    simp [repo_update, h]
  · intro h
    have hne : (dropUnset kwargs).isEmpty = false := by
      cases hd : dropUnset kwargs with
      | nil => exact absurd hd h
      | cons a l => rfl
    refine ⟨by simp [repo_update, hne], ?_⟩
    intro row hrow
    subst hrow
    refine ⟨(fun f =>
      match (dropUnset kwargs).lookup f with
      | some v => some v
      | none => row f), by simp [repo_update, hne], ?_, ?_, ?_⟩
    · intro f v hmem
      simp only [lookup_eq_some_of_mem _ hkeys2 f v hmem]
    · intro f hf
      simp only [lookup_eq_none_of_not_mem _ f hf]
    · intro f hf
      cases hl : (dropUnset kwargs).lookup f with
      | some v => simp only [hl] at hf; cases hf
      | none => simp only [hl] at hf; exact hf

/-- C6 witness: a concrete sparse update — the unset column `c` is
dropped, the remaining update is non-empty, and the write is issued. -/
theorem C6_witness :
    dropUnset wKwargs ≠ [] ∧ (repo_update (some wRow) wKwargs).2 = true :=
  ⟨by decide,
   ((C6_repo_update_sparse_frame (some wRow) wKwargs (by decide)).2.2 (by decide)).1⟩

/-- C7: for both identifiers (id and QR code), the active-card lookup
returns 404 both when no card matches and when the match is inactive,
and the two failure outcomes are literally the same `HTTPErr` value
(same status, same body), so an inactive card leaks no existence
signal; the card is returned exactly when it exists and is active. -/
theorem C7_active_card_lookup_no_existence_leak
    (cards : List Card) (card_id : Nat) (qr : String) :
    (card_get_by_id cards card_id = none →
      get_active_card_by_id cards card_id = .error ⟨404, "카드를 찾을 수 없습니다"⟩) ∧
    (∀ c, card_get_by_id cards card_id = some c → c.isActive = false →
      get_active_card_by_id cards card_id = .error ⟨404, "카드를 찾을 수 없습니다"⟩) ∧
    (∀ c, get_active_card_by_id cards card_id = .ok c ↔
      card_get_by_id cards card_id = some c ∧ c.isActive = true) ∧
    (card_get_by_qr_code cards qr = none →
      get_active_card_by_qr_code cards qr = .error ⟨404, "유효하지 않은 QR 코드입니다"⟩) ∧
    (∀ c, card_get_by_qr_code cards qr = some c → c.isActive = false →
      get_active_card_by_qr_code cards qr = .error ⟨404, "유효하지 않은 QR 코드입니다"⟩) ∧
    (∀ c, get_active_card_by_qr_code cards qr = .ok c ↔
      card_get_by_qr_code cards qr = some c ∧ c.isActive = true) := by
  refine ⟨?_, ?_, ?_, ?_, ?_, ?_⟩
  · intro h
    simp [get_active_card_by_id, h]
  · intro c h ha
    simp [get_active_card_by_id, h, ha]
  · intro c
    constructor
    · intro h
      unfold get_active_card_by_id at h
      cases hf : card_get_by_id cards card_id with
      | none => rw [hf] at h; cases h
      | some c0 =>
        rw [hf] at h
        cases ha : c0.isActive with
        | false => simp [ha] at h
        | true =>
          simp only [ha, Bool.true_eq_false, if_false] at h
          injection h with h
          subst h
          exact ⟨rfl, ha⟩
    · rintro ⟨hf, ha⟩
      simp [get_active_card_by_id, hf, ha]
  · intro h
    simp [get_active_card_by_qr_code, h]
  · intro c h ha
    simp [get_active_card_by_qr_code, h, ha]
  · intro c
    constructor
    · intro h
      unfold get_active_card_by_qr_code at h
      cases hf : card_get_by_qr_code cards qr with
      | none => rw [hf] at h; cases h
      | some c0 =>
        rw [hf] at h
        cases ha : c0.isActive with
        | false => simp [ha] at h
        | true =>
          simp only [ha, Bool.true_eq_false, if_false] at h
          injection h with h
          subst h
          exact ⟨rfl, ha⟩
    · rintro ⟨hf, ha⟩
      simp [get_active_card_by_qr_code, hf, ha]

/-- C7 witness: on a database holding one inactive card, the lookup of
an unknown id and the lookup of the inactive card produce the same 404
response. -/
theorem C7_witness :
    card_get_by_id [wCard] 2 = none ∧
    card_get_by_id [wCard] 1 = some wCard ∧
    wCard.isActive = false ∧
    get_active_card_by_id [wCard] 2 = .error ⟨404, "카드를 찾을 수 없습니다"⟩ ∧
    get_active_card_by_id [wCard] 1 = .error ⟨404, "카드를 찾을 수 없습니다"⟩ :=
  ⟨by decide, by decide, by decide,
   (C7_active_card_lookup_no_existence_leak [wCard] 2 "q").1 (by decide),
   (C7_active_card_lookup_no_existence_leak [wCard] 1 "q").2.1 wCard (by decide) (by decide)⟩

/-- Helper: `getD` at an index reduced modulo the length picks an element
of the list. -/
theorem getD_mod_mem (l : List Char) (i : Nat) (d : Char) (h : 0 < l.length) :
    l.getD (i % l.length) d ∈ l := by
  have hlt : i % l.length < l.length := Nat.mod_lt _ h
  rw [List.getD_eq_getElem l d hlt]
  exact List.getElem_mem hlt

/-- C8: with every flag off `generate_random_string` raises `ValueError`;
with at least one flag on it returns the drawn string, whose length is
exactly the requested length and whose characters all lie in the union of
the enabled classes; `generate_share_token` is the same operation with
upper+lower+digits on and specials off, whose alphabet is the mixed-case
alphanumeric one. -/
theorem C8_generate_random_string_charset (pick : Nat → Nat) (length : Nat)
    (u l d s : Bool) :
    ((u || l || d || s) = false →
      generate_random_string pick length u l d s =
        .error "최소 하나의 문자 타입을 포함해야 합니다") ∧
    ((u || l || d || s) = true →
      generate_random_string pick length u l d s =
        .ok ((List.range length).map (fun i =>
          (assembleCharset u l d s).getD (pick i % (assembleCharset u l d s).length) 'A'))) ∧
    (∀ cs, generate_random_string pick length u l d s = .ok cs →
      cs.length = length ∧ ∀ c ∈ cs, c ∈ assembleCharset u l d s) ∧
    generate_share_token pick length = generate_random_string pick length true true true false ∧
    assembleCharset true true true false = asciiUppercase ++ asciiLowercase ++ asciiDigits := by
  refine ⟨?_, ?_, ?_, rfl, by decide⟩
  · intro hf
    have hu : u = false := by cases u <;> simp_all
    have hl : l = false := by cases l <;> simp_all
    have hd : d = false := by cases d <;> simp_all
    have hs : s = false := by cases s <;> simp_all
    subst hu; subst hl; subst hd; subst hs
    rfl
  · intro ht
    have hne : (assembleCharset u l d s).isEmpty = false := by
      cases u <;> cases l <;> cases d <;> cases s <;>
        first
          | rfl
          | exact Bool.noConfusion ht
    simp only [generate_random_string, hne, Bool.false_eq_true, if_false]
  · intro cs hok
    simp only [generate_random_string] at hok
    cases he : (assembleCharset u l d s).isEmpty with
    | true => simp only [he, if_true] at hok; cases hok
    | false =>
      simp only [he, Bool.false_eq_true, if_false] at hok
      injection hok with hok
      subst hok
      have hpos : 0 < (assembleCharset u l d s).length := by
        cases hcs : assembleCharset u l d s with
        | nil => rw [hcs] at he; cases he
        | cons a as => simp
      constructor
      · rw [List.length_map, List.length_range]
      · intro c hc
        rcases List.mem_map.mp hc with ⟨i, _, rfl⟩
        exact getD_mod_mem _ _ _ hpos

/-- C8 witness: one enabled flag gives the drawn uppercase string of the
requested length. -/
theorem C8_witness :
    ((true || false || false || false : Bool) = true) ∧
    generate_random_string (fun i => i) 3 true false false false =
      .ok ((List.range 3).map (fun i =>
        (assembleCharset true false false false).getD
          (i % (assembleCharset true false false false).length) 'A')) :=
  ⟨rfl,
   (C8_generate_random_string_charset (fun i => i) 3 true false false false).2.1 rfl⟩

/-- C9: `PaginatedResponse.create` computes `total_pages` as
`(total + page_size - 1) // page_size`, which is exactly
`ceil(total / page_size)`: it is `0` when `total = 0`, it covers `total`
(`total ≤ total_pages * page_size`), and it is the least such page
count. -/
theorem C9_total_pages_is_ceil {T : Type} (items : List T) (total page page_size : Nat)
    (h : 1 ≤ page_size) :
    (PaginatedResponse.create items total page page_size).total_pages =
      (total + page_size - 1) / page_size ∧
    (total = 0 → (PaginatedResponse.create items total page page_size).total_pages = 0) ∧
    total ≤ (PaginatedResponse.create items total page page_size).total_pages * page_size ∧
    (∀ m : Nat, total ≤ m * page_size →
      (PaginatedResponse.create items total page page_size).total_pages ≤ m) := by
  have hps : 0 < page_size := h
  refine ⟨rfl, ?_, ?_, ?_⟩
  · intro ht
    subst ht
    show (0 + page_size - 1) / page_size = 0
    rw [Nat.zero_add]
    exact Nat.div_eq_of_lt (by omega)
  · show total ≤ (total + page_size - 1) / page_size * page_size
    rw [Nat.mul_comm]
    have hdm := Nat.div_add_mod (total + page_size - 1) page_size
    have hmod : (total + page_size - 1) % page_size < page_size :=
      Nat.mod_lt _ hps
    generalize hA : page_size * ((total + page_size - 1) / page_size) = A at hdm ⊢
    generalize hr : (total + page_size - 1) % page_size = r at hdm hmod
    omega
  · intro m hm
    show (total + page_size - 1) / page_size ≤ m
    rw [← Nat.lt_succ_iff, Nat.div_lt_iff_lt_mul hps]
    have hexp : (m + 1) * page_size = m * page_size + page_size := by ring
    rw [hexp]
    generalize hB : m * page_size = B at hm ⊢
    omega

/-- C9 witness: 5 items at page size 2 give 3 pages. -/
theorem C9_witness :
    (1 : Nat) ≤ 2 ∧ (PaginatedResponse.create ([] : List Nat) 5 1 2).total_pages = 3 :=
  ⟨by decide, by rw [(C9_total_pages_is_ceil ([] : List Nat) 5 1 2 (by decide)).1]⟩

/-- C10: each share route handler reads `expiryDate` from a request
schema that declares only `expiryDays` (plus `cardId`/`password`, resp.
`password`/`isActive`), so it fails with `AttributeError` on every input
while assembling the service call's arguments — the share service
(`svc`, `svc2`) is never invoked, whatever it would do, and no
conversion from `expiryDays` to an absolute `expiryDate` exists on
these paths. -/
theorem C10_share_routes_raise_attribute_error {α : Type}
    (svc svc2 : Unit → Except HTTPErr α) :
    create_share_route svc = .error .attributeError ∧
    update_share_route svc2 = .error .attributeError :=
  ⟨rfl, rfl⟩

end MOA
